import Mathlib

/-!
Verification of the Rubik's Cube solver demo engine
(`demo.html` script embedded in `TECHNICAL_DOCUMENTATION.md`, lines 1137-1783).

The engine's data model is `cubeState`: an object mapping the six face
identifiers `U, D, F, B, R, L` to arrays of 9 color indices (0-5).
We embed it as a function `Face → Fin 9 → ℕ`.

Note on the source text: lines 1469 (`newState['D'][5']`), 1529 and 1541
(`newState['R'][3']`) carry a stray apostrophe inside the index literal
(a transcription slip in the document, not valid JavaScript); every
surrounding assignment of those triples uses the column indices
{2,5,8} resp. {0,3,6}, so they are embedded as indices 5 and 3.
-/

/-- The six face identifiers of the cube state object
    (`cubeState = { 'U': ..., 'D': ..., 'F': ..., 'B': ..., 'R': ..., 'L': ... }`). -/
inductive Face where
  | U | D | F | B | R | L
deriving DecidableEq, Fintype, Repr

/-- A cube state: each face maps to its ordered 9-array of color indices. -/
abbrev CubeState := Face → Fin 9 → ℕ

/-- A facelet position: a face together with an index 0-8 into its array. -/
abbrev Pos := Face × Fin 9

/-- Read a state at a position. -/
def stateAt (s : CubeState) (p : Pos) : ℕ := s p.1 p.2

/-- The solved configuration literal
    (`'U': Array(9).fill(0), 'D': Array(9).fill(1), 'F': Array(9).fill(2),
      'B': Array(9).fill(3), 'R': Array(9).fill(4), 'L': Array(9).fill(5)`).
    This literal appears verbatim three times in the source: as the initial
    `cubeState` (line 1150), as the local `solvedState` inside `checkSolved`
    (line 1599), and as the value assigned by `resetCube` (line 1667). -/
def solvedState : CubeState
  | .U => fun _ => 0
  | .D => fun _ => 1
  | .F => fun _ => 2
  | .B => fun _ => 3
  | .R => fun _ => 4
  | .L => fun _ => 5

/-- `rotateFaceletArrayClockwise` (source line 1330): 90° clockwise rotation
    of a 3x3 facelet array; `newFace[0] = faceArray[6]`, etc. -/
def rotateFaceletArrayClockwise (a : Fin 9 → ℕ) : Fin 9 → ℕ
  | 0 => a 6 | 1 => a 3 | 2 => a 0
  | 3 => a 7 | 4 => a 4 | 5 => a 1
  | 6 => a 8 | 7 => a 5 | 8 => a 2

/-- `rotateFaceletArrayCounterClockwise` (source line 1339): 90°
    counter-clockwise rotation; `newFace[0] = faceArray[2]`, etc. -/
def rotateFaceletArrayCounterClockwise (a : Fin 9 → ℕ) : Fin 9 → ℕ
  | 0 => a 2 | 1 => a 5 | 2 => a 8
  | 3 => a 1 | 4 => a 4 | 5 => a 7
  | 6 => a 0 | 7 => a 3 | 8 => a 6

/-- One array assignment `a[j] = v` on a copied 9-array. -/
def setIdx (a : Fin 9 → ℕ) (j : Fin 9) (v : ℕ) : Fin 9 → ℕ :=
  fun i => if i = j then v else a i

/-- The 12 valid move symbols, in the order of the UI's `basicMoves` list and
    the documentation's `MOVES` constant. -/
def validMoves : List String :=
  ["U", "U'", "D", "D'", "R", "R'", "L", "L'", "F", "F'", "B", "B'"]

/-- `applyMoveToCubeState` (source lines 1348-1594): switch on the move symbol;
    each case rotates the turning face's 9-array and permutes the three-facelet
    strips of the four adjacent faces, all reads taken from the pre-move state
    (the source deep-copies `cubeState` into `newState` and reads only from
    `cubeState`).  A symbol matching no case leaves the state unchanged (the
    switch has no default; `newState` stays the deep copy). -/
def applyMoveToCubeState (move : String) (s : CubeState) : CubeState :=
  match move with
  | "U" => fun f => match f with
    | .U => rotateFaceletArrayClockwise (s .U)
    | .F => setIdx (setIdx (setIdx (s .F) 0 (s .R 0)) 1 (s .R 1)) 2 (s .R 2)
    | .R => setIdx (setIdx (setIdx (s .R) 0 (s .B 0)) 1 (s .B 1)) 2 (s .B 2)
    | .B => setIdx (setIdx (setIdx (s .B) 0 (s .L 0)) 1 (s .L 1)) 2 (s .L 2)
    | .L => setIdx (setIdx (setIdx (s .L) 0 (s .F 0)) 1 (s .F 1)) 2 (s .F 2)
    | .D => s .D
  | "U'" => fun f => match f with
    | .U => rotateFaceletArrayCounterClockwise (s .U)
    | .F => setIdx (setIdx (setIdx (s .F) 0 (s .L 0)) 1 (s .L 1)) 2 (s .L 2)
    | .L => setIdx (setIdx (setIdx (s .L) 0 (s .B 0)) 1 (s .B 1)) 2 (s .B 2)
    | .B => setIdx (setIdx (setIdx (s .B) 0 (s .R 0)) 1 (s .R 1)) 2 (s .R 2)
    | .R => setIdx (setIdx (setIdx (s .R) 0 (s .F 0)) 1 (s .F 1)) 2 (s .F 2)
    | .D => s .D
  | "D" => fun f => match f with
    | .D => rotateFaceletArrayClockwise (s .D)
    | .F => setIdx (setIdx (setIdx (s .F) 6 (s .L 6)) 7 (s .L 7)) 8 (s .L 8)
    | .L => setIdx (setIdx (setIdx (s .L) 6 (s .B 6)) 7 (s .B 7)) 8 (s .B 8)
    | .B => setIdx (setIdx (setIdx (s .B) 6 (s .R 6)) 7 (s .R 7)) 8 (s .R 8)
    | .R => setIdx (setIdx (setIdx (s .R) 6 (s .F 6)) 7 (s .F 7)) 8 (s .F 8)
    | .U => s .U
  | "D'" => fun f => match f with
    | .D => rotateFaceletArrayCounterClockwise (s .D)
    | .F => setIdx (setIdx (setIdx (s .F) 6 (s .R 6)) 7 (s .R 7)) 8 (s .R 8)
    | .R => setIdx (setIdx (setIdx (s .R) 6 (s .B 6)) 7 (s .B 7)) 8 (s .B 8)
    | .B => setIdx (setIdx (setIdx (s .B) 6 (s .L 6)) 7 (s .L 7)) 8 (s .L 8)
    | .L => setIdx (setIdx (setIdx (s .L) 6 (s .F 6)) 7 (s .F 7)) 8 (s .F 8)
    | .U => s .U
  | "R" => fun f => match f with
    | .R => rotateFaceletArrayClockwise (s .R)
    | .F => setIdx (setIdx (setIdx (s .F) 2 (s .D 2)) 5 (s .D 5)) 8 (s .D 8)
    | .D => setIdx (setIdx (setIdx (s .D) 2 (s .B 6)) 5 (s .B 3)) 8 (s .B 0)
    | .B => setIdx (setIdx (setIdx (s .B) 0 (s .U 8)) 3 (s .U 5)) 6 (s .U 2)
    | .U => setIdx (setIdx (setIdx (s .U) 2 (s .F 2)) 5 (s .F 5)) 8 (s .F 8)
    | .L => s .L
  | "R'" => fun f => match f with
    | .R => rotateFaceletArrayCounterClockwise (s .R)
    | .F => setIdx (setIdx (setIdx (s .F) 2 (s .U 2)) 5 (s .U 5)) 8 (s .U 8)
    | .U => setIdx (setIdx (setIdx (s .U) 2 (s .B 6)) 5 (s .B 3)) 8 (s .B 0)
    | .B => setIdx (setIdx (setIdx (s .B) 0 (s .D 8)) 3 (s .D 5)) 6 (s .D 2)
    | .D => setIdx (setIdx (setIdx (s .D) 2 (s .F 2)) 5 (s .F 5)) 8 (s .F 8)
    | .L => s .L
  | "L" => fun f => match f with
    | .L => rotateFaceletArrayClockwise (s .L)
    | .F => setIdx (setIdx (setIdx (s .F) 0 (s .U 0)) 3 (s .U 3)) 6 (s .U 6)
    | .U => setIdx (setIdx (setIdx (s .U) 0 (s .B 8)) 3 (s .B 5)) 6 (s .B 2)
    | .B => setIdx (setIdx (setIdx (s .B) 2 (s .D 6)) 5 (s .D 3)) 8 (s .D 0)
    | .D => setIdx (setIdx (setIdx (s .D) 0 (s .F 0)) 3 (s .F 3)) 6 (s .F 6)
    | .R => s .R
  | "L'" => fun f => match f with
    | .L => rotateFaceletArrayCounterClockwise (s .L)
    | .F => setIdx (setIdx (setIdx (s .F) 0 (s .D 0)) 3 (s .D 3)) 6 (s .D 6)
    | .D => setIdx (setIdx (setIdx (s .D) 0 (s .B 8)) 3 (s .B 5)) 6 (s .B 2)
    | .B => setIdx (setIdx (setIdx (s .B) 2 (s .U 6)) 5 (s .U 3)) 8 (s .U 0)
    | .U => setIdx (setIdx (setIdx (s .U) 0 (s .F 0)) 3 (s .F 3)) 6 (s .F 6)
    | .R => s .R
  | "F" => fun f => match f with
    | .F => rotateFaceletArrayClockwise (s .F)
    | .U => setIdx (setIdx (setIdx (s .U) 6 (s .L 8)) 7 (s .L 5)) 8 (s .L 2)
    | .L => setIdx (setIdx (setIdx (s .L) 2 (s .D 0)) 5 (s .D 1)) 8 (s .D 2)
    | .D => setIdx (setIdx (setIdx (s .D) 0 (s .R 6)) 1 (s .R 3)) 2 (s .R 0)
    | .R => setIdx (setIdx (setIdx (s .R) 0 (s .U 6)) 3 (s .U 7)) 6 (s .U 8)
    | .B => s .B
  | "F'" => fun f => match f with
    | .F => rotateFaceletArrayCounterClockwise (s .F)
    | .U => setIdx (setIdx (setIdx (s .U) 6 (s .R 0)) 7 (s .R 3)) 8 (s .R 6)
    | .R => setIdx (setIdx (setIdx (s .R) 0 (s .D 2)) 3 (s .D 1)) 6 (s .D 0)
    | .D => setIdx (setIdx (setIdx (s .D) 0 (s .L 2)) 1 (s .L 5)) 2 (s .L 8)
    | .L => setIdx (setIdx (setIdx (s .L) 2 (s .U 8)) 5 (s .U 7)) 8 (s .U 6)
    | .B => s .B
  | "B" => fun f => match f with
    | .B => rotateFaceletArrayClockwise (s .B)
    | .U => setIdx (setIdx (setIdx (s .U) 0 (s .R 2)) 1 (s .R 5)) 2 (s .R 8)
    | .R => setIdx (setIdx (setIdx (s .R) 2 (s .D 8)) 5 (s .D 7)) 8 (s .D 6)
    | .D => setIdx (setIdx (setIdx (s .D) 6 (s .L 0)) 7 (s .L 3)) 8 (s .L 6)
    | .L => setIdx (setIdx (setIdx (s .L) 0 (s .U 2)) 3 (s .U 1)) 6 (s .U 0)
    | .F => s .F
  | "B'" => fun f => match f with
    | .B => rotateFaceletArrayCounterClockwise (s .B)
    | .U => setIdx (setIdx (setIdx (s .U) 0 (s .L 6)) 1 (s .L 3)) 2 (s .L 0)
    | .L => setIdx (setIdx (setIdx (s .L) 0 (s .D 6)) 3 (s .D 7)) 6 (s .D 8)
    | .D => setIdx (setIdx (setIdx (s .D) 6 (s .R 8)) 7 (s .R 5)) 8 (s .R 2)
    | .R => setIdx (setIdx (setIdx (s .R) 2 (s .U 0)) 5 (s .U 1)) 8 (s .U 2)
    | .F => s .F
  | _ => s

/-- `checkSolved` (source lines 1597-1616): compares every facelet of every
    face against the fixed `solvedState` literal defined inside the function;
    returns `false` at the first mismatch. -/
def checkSolved (s : CubeState) : Bool :=
  [Face.U, Face.D, Face.F, Face.B, Face.R, Face.L].all fun f =>
    (List.finRange 9).all fun i => s f i == solvedState f i

/-- The fixed scramble sequence of `scrambleCube` (source line 1627). -/
def scrambleSequence : List String :=
  ["R", "U", "R'", "U'", "F", "R", "F'", "R'", "U", "R", "U'", "R'", "F'", "U'", "F"]

/-- The fixed solution sequence of `solveCube` (source line 1649): the listed
    array followed by `.reverse()`. -/
def solutionSequence : List String :=
  (["F'", "U", "F", "R", "U", "R'", "U", "R", "F", "R'", "F'", "U",
    "R", "U'", "R'", "F'", "U'", "F"]).reverse

/-- Replay a move list through the move engine in order, as `scrambleCube` and
    `solveCube` do (`for (const move of sequence) { applyMoveToCubeState(move) }`). -/
def applySeq (moves : List String) (s : CubeState) : CubeState :=
  moves.foldl (fun st m => applyMoveToCubeState m st) s

/-- `applyMove` (source lines 1683-1695): pushes the symbol onto `moveHistory`,
    applies it via `applyMoveToCubeState`, and recomputes `isSolved` via
    `checkSolved`; it has no error path for unrecognized symbols.  Returns the
    triple (new `cubeState`, new `moveHistory`, new `isSolved`). -/
def applyMove (move : String) (st : CubeState) (hist : List String) :
    CubeState × List String × Bool :=
  let hist' := hist ++ [move]
  let st' := applyMoveToCubeState move st
  (st', hist', checkSolved st')

/-!
Position-permutation view of the move engine

Every case of `applyMoveToCubeState` only copies facelets around: the facelet
written at each position is read from one fixed source position.  For each of
the 12 moves we record that source map as a function `Pos → Pos` and prove
(by exhausting all 54 positions) that the move equals reindexing along it.
The group laws then become finite checks on these maps.
-/

/-- Reindex a state along a source map: position `p` of the result holds the
    facelet that `s` holds at `σ p`. -/
def reindex (σ : Pos → Pos) (s : CubeState) : CubeState :=
  fun f i => stateAt s (σ (f, i))

lemma reindex_reindex (σ τ : Pos → Pos) (s : CubeState) :
    reindex σ (reindex τ s) = reindex (fun p => τ (σ p)) s := rfl

lemma reindex_eq_self {σ : Pos → Pos} (h : ∀ p, σ p = p) (s : CubeState) :
    reindex σ s = s := by
  funext f i
  show stateAt s (σ (f, i)) = s f i
  rw [h (f, i)]
  rfl

/-- Source index read by `rotateFaceletArrayClockwise` at each output index. -/
def rotCWsrc : Fin 9 → Fin 9
  | 0 => 6 | 1 => 3 | 2 => 0
  | 3 => 7 | 4 => 4 | 5 => 1
  | 6 => 8 | 7 => 5 | 8 => 2

/-- Source index read by `rotateFaceletArrayCounterClockwise` at each output index. -/
def rotCCWsrc : Fin 9 → Fin 9
  | 0 => 2 | 1 => 5 | 2 => 8
  | 3 => 1 | 4 => 4 | 5 => 7
  | 6 => 0 | 7 => 3 | 8 => 6

/-- Source map of the `'U'` case. -/
def permU : Pos → Pos
  | (.U, i) => (.U, rotCWsrc i)
  | (.F, i) => if i.val < 3 then (.R, i) else (.F, i)
  | (.R, i) => if i.val < 3 then (.B, i) else (.R, i)
  | (.B, i) => if i.val < 3 then (.L, i) else (.B, i)
  | (.L, i) => if i.val < 3 then (.F, i) else (.L, i)
  | (.D, i) => (.D, i)

/-- Source map of the `'U''` case. -/
def permU' : Pos → Pos
  | (.U, i) => (.U, rotCCWsrc i)
  | (.F, i) => if i.val < 3 then (.L, i) else (.F, i)
  | (.L, i) => if i.val < 3 then (.B, i) else (.L, i)
  | (.B, i) => if i.val < 3 then (.R, i) else (.B, i)
  | (.R, i) => if i.val < 3 then (.F, i) else (.R, i)
  | (.D, i) => (.D, i)

lemma applyMove_U (s : CubeState) :
    applyMoveToCubeState "U" s = reindex permU s := by
  funext f i
  cases f <;> fin_cases i <;> rfl

lemma applyMove_U' (s : CubeState) :
    applyMoveToCubeState "U'" s = reindex permU' s := by
  funext f i
  cases f <;> fin_cases i <;> rfl

/-- Source map of the `'D'` case. -/
def permD : Pos → Pos
  | (.D, i) => (.D, rotCWsrc i)
  | (.F, i) => if 6 ≤ i.val then (.L, i) else (.F, i)
  | (.L, i) => if 6 ≤ i.val then (.B, i) else (.L, i)
  | (.B, i) => if 6 ≤ i.val then (.R, i) else (.B, i)
  | (.R, i) => if 6 ≤ i.val then (.F, i) else (.R, i)
  | (.U, i) => (.U, i)

/-- Source map of the `'D''` case. -/
def permD' : Pos → Pos
  | (.D, i) => (.D, rotCCWsrc i)
  | (.F, i) => if 6 ≤ i.val then (.R, i) else (.F, i)
  | (.R, i) => if 6 ≤ i.val then (.B, i) else (.R, i)
  | (.B, i) => if 6 ≤ i.val then (.L, i) else (.B, i)
  | (.L, i) => if 6 ≤ i.val then (.F, i) else (.L, i)
  | (.U, i) => (.U, i)

/-- Source map of the `'R'` case. -/
def permR : Pos → Pos
  | (.R, i) => (.R, rotCWsrc i)
  | (.F, i) => if i = 2 ∨ i = 5 ∨ i = 8 then (.D, i) else (.F, i)
  | (.D, i) =>
    if i = 2 then (.B, 6) else if i = 5 then (.B, 3) else
    if i = 8 then (.B, 0) else (.D, i)
  | (.B, i) =>
    if i = 0 then (.U, 8) else if i = 3 then (.U, 5) else
    if i = 6 then (.U, 2) else (.B, i)
  | (.U, i) => if i = 2 ∨ i = 5 ∨ i = 8 then (.F, i) else (.U, i)
  | (.L, i) => (.L, i)

/-- Source map of the `'R''` case. -/
def permR' : Pos → Pos
  | (.R, i) => (.R, rotCCWsrc i)
  | (.F, i) => if i = 2 ∨ i = 5 ∨ i = 8 then (.U, i) else (.F, i)
  | (.U, i) =>
    if i = 2 then (.B, 6) else if i = 5 then (.B, 3) else
    if i = 8 then (.B, 0) else (.U, i)
  | (.B, i) =>
    if i = 0 then (.D, 8) else if i = 3 then (.D, 5) else
    if i = 6 then (.D, 2) else (.B, i)
  | (.D, i) => if i = 2 ∨ i = 5 ∨ i = 8 then (.F, i) else (.D, i)
  | (.L, i) => (.L, i)

/-- Source map of the `'L'` case. -/
def permL : Pos → Pos
  | (.L, i) => (.L, rotCWsrc i)
  | (.F, i) => if i = 0 ∨ i = 3 ∨ i = 6 then (.U, i) else (.F, i)
  | (.U, i) =>
    if i = 0 then (.B, 8) else if i = 3 then (.B, 5) else
    if i = 6 then (.B, 2) else (.U, i)
  | (.B, i) =>
    if i = 2 then (.D, 6) else if i = 5 then (.D, 3) else
    if i = 8 then (.D, 0) else (.B, i)
  | (.D, i) => if i = 0 ∨ i = 3 ∨ i = 6 then (.F, i) else (.D, i)
  | (.R, i) => (.R, i)

/-- Source map of the `'L''` case. -/
def permL' : Pos → Pos
  | (.L, i) => (.L, rotCCWsrc i)
  | (.F, i) => if i = 0 ∨ i = 3 ∨ i = 6 then (.D, i) else (.F, i)
  | (.D, i) =>
    if i = 0 then (.B, 8) else if i = 3 then (.B, 5) else
    if i = 6 then (.B, 2) else (.D, i)
  | (.B, i) =>
    if i = 2 then (.U, 6) else if i = 5 then (.U, 3) else
    if i = 8 then (.U, 0) else (.B, i)
  | (.U, i) => if i = 0 ∨ i = 3 ∨ i = 6 then (.F, i) else (.U, i)
  | (.R, i) => (.R, i)

/-- Source map of the `'F'` case. -/
def permF : Pos → Pos
  | (.F, i) => (.F, rotCWsrc i)
  | (.U, i) =>
    if i = 6 then (.L, 8) else if i = 7 then (.L, 5) else
    if i = 8 then (.L, 2) else (.U, i)
  | (.L, i) =>
    if i = 2 then (.D, 0) else if i = 5 then (.D, 1) else
    if i = 8 then (.D, 2) else (.L, i)
  | (.D, i) =>
    if i = 0 then (.R, 6) else if i = 1 then (.R, 3) else
    if i = 2 then (.R, 0) else (.D, i)
  | (.R, i) =>
    if i = 0 then (.U, 6) else if i = 3 then (.U, 7) else
    if i = 6 then (.U, 8) else (.R, i)
  | (.B, i) => (.B, i)

/-- Source map of the `'F''` case. -/
def permF' : Pos → Pos
  | (.F, i) => (.F, rotCCWsrc i)
  | (.U, i) =>
    if i = 6 then (.R, 0) else if i = 7 then (.R, 3) else
    if i = 8 then (.R, 6) else (.U, i)
  | (.R, i) =>
    if i = 0 then (.D, 2) else if i = 3 then (.D, 1) else
    if i = 6 then (.D, 0) else (.R, i)
  | (.D, i) =>
    if i = 0 then (.L, 2) else if i = 1 then (.L, 5) else
    if i = 2 then (.L, 8) else (.D, i)
  | (.L, i) =>
    if i = 2 then (.U, 8) else if i = 5 then (.U, 7) else
    if i = 8 then (.U, 6) else (.L, i)
  | (.B, i) => (.B, i)

/-- Source map of the `'B'` case. -/
def permB : Pos → Pos
  | (.B, i) => (.B, rotCWsrc i)
  | (.U, i) =>
    if i = 0 then (.R, 2) else if i = 1 then (.R, 5) else
    if i = 2 then (.R, 8) else (.U, i)
  | (.R, i) =>
    if i = 2 then (.D, 8) else if i = 5 then (.D, 7) else
    if i = 8 then (.D, 6) else (.R, i)
  | (.D, i) =>
    if i = 6 then (.L, 0) else if i = 7 then (.L, 3) else
    if i = 8 then (.L, 6) else (.D, i)
  | (.L, i) =>
    if i = 0 then (.U, 2) else if i = 3 then (.U, 1) else
    if i = 6 then (.U, 0) else (.L, i)
  | (.F, i) => (.F, i)

/-- Source map of the `'B''` case. -/
def permB' : Pos → Pos
  | (.B, i) => (.B, rotCCWsrc i)
  | (.U, i) =>
    if i = 0 then (.L, 6) else if i = 1 then (.L, 3) else
    if i = 2 then (.L, 0) else (.U, i)
  | (.L, i) =>
    if i = 0 then (.D, 6) else if i = 3 then (.D, 7) else
    if i = 6 then (.D, 8) else (.L, i)
  | (.D, i) =>
    if i = 6 then (.R, 8) else if i = 7 then (.R, 5) else
    if i = 8 then (.R, 2) else (.D, i)
  | (.R, i) =>
    if i = 2 then (.U, 0) else if i = 5 then (.U, 1) else
    if i = 8 then (.U, 2) else (.R, i)
  | (.F, i) => (.F, i)

lemma applyMove_D (s : CubeState) :
    applyMoveToCubeState "D" s = reindex permD s := by
  funext f i
  cases f <;> fin_cases i <;> rfl

lemma applyMove_D' (s : CubeState) :
    applyMoveToCubeState "D'" s = reindex permD' s := by
  funext f i
  cases f <;> fin_cases i <;> rfl

lemma applyMove_R (s : CubeState) :
    applyMoveToCubeState "R" s = reindex permR s := by
  funext f i
  cases f <;> fin_cases i <;> rfl

lemma applyMove_R' (s : CubeState) :
    applyMoveToCubeState "R'" s = reindex permR' s := by
  funext f i
  cases f <;> fin_cases i <;> rfl

lemma applyMove_L (s : CubeState) :
    applyMoveToCubeState "L" s = reindex permL s := by
  funext f i
  cases f <;> fin_cases i <;> rfl

lemma applyMove_L' (s : CubeState) :
    applyMoveToCubeState "L'" s = reindex permL' s := by
  funext f i
  cases f <;> fin_cases i <;> rfl

lemma applyMove_F (s : CubeState) :
    applyMoveToCubeState "F" s = reindex permF s := by
  funext f i
  cases f <;> fin_cases i <;> rfl

lemma applyMove_F' (s : CubeState) :
    applyMoveToCubeState "F'" s = reindex permF' s := by
  funext f i
  cases f <;> fin_cases i <;> rfl

lemma applyMove_B (s : CubeState) :
    applyMoveToCubeState "B" s = reindex permB s := by
  funext f i
  cases f <;> fin_cases i <;> rfl

lemma applyMove_B' (s : CubeState) :
    applyMoveToCubeState "B'" s = reindex permB' s := by
  funext f i
  cases f <;> fin_cases i <;> rfl

/-- The inverse symbol of each of the 12 generators (U ↦ U', U' ↦ U, and
    likewise for D, R, L, F, B). -/
def inverseMove : String → String
  | "U" => "U'" | "U'" => "U"
  | "D" => "D'" | "D'" => "D"
  | "R" => "R'" | "R'" => "R"
  | "L" => "L'" | "L'" => "L"
  | "F" => "F'" | "F'" => "F"
  | "B" => "B'" | "B'" => "B"
  | m => m

lemma cancel_of_reindex {m₁ m₂ : String} {σ₁ σ₂ : Pos → Pos}
    (h₁ : ∀ s, applyMoveToCubeState m₁ s = reindex σ₁ s)
    (h₂ : ∀ s, applyMoveToCubeState m₂ s = reindex σ₂ s)
    (hinv : ∀ p, σ₁ (σ₂ p) = p) (s : CubeState) :
    applyMoveToCubeState m₂ (applyMoveToCubeState m₁ s) = s := by
  rw [h₁, h₂, reindex_reindex]
  exact reindex_eq_self hinv s

lemma four_of_reindex {m : String} {σ : Pos → Pos}
    (h : ∀ s, applyMoveToCubeState m s = reindex σ s)
    (h4 : ∀ p, σ (σ (σ (σ p))) = p) (s : CubeState) :
    applyMoveToCubeState m (applyMoveToCubeState m
      (applyMoveToCubeState m (applyMoveToCubeState m s))) = s := by
  simp only [h]
  funext f i
  show stateAt s (σ (σ (σ (σ (f, i))))) = s f i
  rw [h4 (f, i)]
  rfl

/-- Number of facelets of the whole state holding color `c`. -/
def colorCount (s : CubeState) (c : ℕ) : ℕ :=
  (Finset.univ.filter fun p : Pos => stateAt s p = c).card

lemma colorCount_reindex (σ τ : Pos → Pos)
    (hτσ : ∀ p, τ (σ p) = p) (hστ : ∀ p, σ (τ p) = p)
    (s : CubeState) (c : ℕ) :
    colorCount (reindex σ s) c = colorCount s c := by
  show (Finset.univ.filter fun p : Pos => stateAt s (σ p) = c).card
    = (Finset.univ.filter fun p : Pos => stateAt s p = c).card
  rw [← Fintype.card_subtype, ← Fintype.card_subtype]
  exact Fintype.card_congr
    (Equiv.subtypeEquiv (⟨σ, τ, hτσ, hστ⟩ : Pos ≃ Pos) fun p => Iff.rfl)

lemma checkSolved_eq_true_iff (s : CubeState) :
    checkSolved s = true ↔ ∀ (f : Face) (i : Fin 9), s f i = solvedState f i := by
  unfold checkSolved
  simp only [List.all_eq_true, beq_iff_eq]
  constructor
  · intro h f i
    exact h f (by cases f <;> simp) i (List.mem_finRange i)
  · intro h f _ i _
    exact h f i

/-!
Claim theorems
-/

/-- Claim C1: the spec requires that, starting from the solved state, applying
    `scrambleCube`'s fixed scramble sequence and then replaying the fixed
    solution sequence of `solveCube` yields a state with `isSolved == true`.
    The code violates this: the scramble does produce a non-solved state, but
    replaying `solveCube`'s `solutionSequence` leaves the cube unsolved —
    even though replaying the true inverse of the scramble (reversed order,
    each move inverted) does return it to solved, so the move engine itself is
    consistent and the fixed solution list is simply not the inverse of the
    scramble (it is 18 moves long against a 15-move scramble, despite the
    source comment calling it "reverse of scramble"). -/
theorem scramble_then_fixed_solution_not_solved :
    checkSolved (applySeq scrambleSequence solvedState) = false ∧
    checkSolved (applySeq solutionSequence (applySeq scrambleSequence solvedState)) = false ∧
    checkSolved (applySeq ((scrambleSequence.map inverseMove).reverse)
      (applySeq scrambleSequence solvedState)) = true :=
  ⟨rfl, rfl, rfl⟩

/-- Claim C2: for every state and each of the 12 move symbols, applying the
    move and then its inverse symbol returns exactly the original state. -/
theorem apply_inverseMove_apply_eq_self :
    ∀ m ∈ validMoves, ∀ s : CubeState,
      applyMoveToCubeState (inverseMove m) (applyMoveToCubeState m s) = s := by
  intro m hm
  simp only [validMoves] at hm
  fin_cases hm
  · exact cancel_of_reindex applyMove_U applyMove_U' (by decide)
  · exact cancel_of_reindex applyMove_U' applyMove_U (by decide)
  · exact cancel_of_reindex applyMove_D applyMove_D' (by decide)
  · exact cancel_of_reindex applyMove_D' applyMove_D (by decide)
  · exact cancel_of_reindex applyMove_R applyMove_R' (by decide)
  · exact cancel_of_reindex applyMove_R' applyMove_R (by decide)
  · exact cancel_of_reindex applyMove_L applyMove_L' (by decide)
  · exact cancel_of_reindex applyMove_L' applyMove_L (by decide)
  · exact cancel_of_reindex applyMove_F applyMove_F' (by decide)
  · exact cancel_of_reindex applyMove_F' applyMove_F (by decide)
  · exact cancel_of_reindex applyMove_B applyMove_B' (by decide)
  · exact cancel_of_reindex applyMove_B' applyMove_B (by decide)

/-- Witness for C2 at the concrete move `R` on the solved state. -/
theorem apply_inverseMove_apply_eq_self_witness :
    applyMoveToCubeState (inverseMove "R") (applyMoveToCubeState "R" solvedState)
      = solvedState :=
  apply_inverseMove_apply_eq_self "R" (by decide) solvedState

/-- Claim C3: for every state and each of the 12 move symbols, applying the
    move four times in succession returns exactly the original state. -/
theorem apply_four_times_eq_self :
    ∀ m ∈ validMoves, ∀ s : CubeState,
      applyMoveToCubeState m (applyMoveToCubeState m
        (applyMoveToCubeState m (applyMoveToCubeState m s))) = s := by
  intro m hm
  simp only [validMoves] at hm
  fin_cases hm
  · exact four_of_reindex applyMove_U (by decide)
  · exact four_of_reindex applyMove_U' (by decide)
  · exact four_of_reindex applyMove_D (by decide)
  · exact four_of_reindex applyMove_D' (by decide)
  · exact four_of_reindex applyMove_R (by decide)
  · exact four_of_reindex applyMove_R' (by decide)
  · exact four_of_reindex applyMove_L (by decide)
  · exact four_of_reindex applyMove_L' (by decide)
  · exact four_of_reindex applyMove_F (by decide)
  · exact four_of_reindex applyMove_F' (by decide)
  · exact four_of_reindex applyMove_B (by decide)
  · exact four_of_reindex applyMove_B' (by decide)

/-- Witness for C3 at the concrete move `F` on the solved state. -/
theorem apply_four_times_eq_self_witness :
    applyMoveToCubeState "F" (applyMoveToCubeState "F"
      (applyMoveToCubeState "F" (applyMoveToCubeState "F" solvedState)))
      = solvedState :=
  apply_four_times_eq_self "F" (by decide) solvedState

/-- A state in which every face is uniformly colored with the value of its own
    center, but with Up and Down swapped relative to the fixed assignment. -/
def uniformSwapped : CubeState
  | .U => fun _ => 1
  | .D => fun _ => 0
  | .F => fun _ => 2
  | .B => fun _ => 3
  | .R => fun _ => 4
  | .L => fun _ => 5

/-- Counterexample for claim C4: `checkSolved` is not decided relative to each
    face's own center.  In `uniformSwapped` every facelet equals its face's
    center (index 4), yet `checkSolved` returns `false`, because the function
    compares against the fixed solved assignment. -/
theorem checkSolved_not_center_relative :
    ¬ ((checkSolved uniformSwapped = true) ↔
        ∀ (f : Face) (i : Fin 9), uniformSwapped f i = uniformSwapped f 4) := by
  decide

/-- Claim C4 (amended): `checkSolved s` is true iff every facelet of every face
    equals the fixed solved color of that face (U=0, D=1, F=2, B=3, R=4, L=5),
    i.e. the comparison is against the fixed color assignment, not against each
    face's own center. -/
theorem checkSolved_iff_all_facelets_solved_colors (s : CubeState) :
    checkSolved s = true ↔ ∀ (f : Face) (i : Fin 9), s f i = solvedState f i :=
  checkSolved_eq_true_iff s

/-- Claim C5: the spec requires an invalid move symbol such as `"X"` to leave
    the state bit-for-bit unchanged and to signal an `InvalidMoveError`.  The
    engine does leave the state unchanged (the switch in
    `applyMoveToCubeState` has no matching case, so the deep copy is returned),
    but `applyMove` has no error path at all: it records the invalid symbol in
    the move history and completes normally. -/
theorem invalidMove_state_unchanged_no_error :
    ∀ (s : CubeState) (hist : List String),
      applyMoveToCubeState "X" s = s ∧
      applyMove "X" s hist = (s, hist ++ ["X"], checkSolved s) :=
  fun _ _ => ⟨rfl, rfl⟩

/-- Claim C6: from any state in which each of the 6 color indices appears
    exactly 9 times, every one of the 12 moves yields a state in which each
    color index again appears exactly 9 times. -/
theorem apply_preserves_color_counts :
    ∀ m ∈ validMoves, ∀ s : CubeState,
      (∀ c, c < 6 → colorCount s c = 9) →
      ∀ c, c < 6 → colorCount (applyMoveToCubeState m s) c = 9 := by
  intro m hm s hs c hc
  simp only [validMoves] at hm
  fin_cases hm
  · rw [applyMove_U, colorCount_reindex permU permU' (by decide) (by decide)]
    exact hs c hc
  · rw [applyMove_U', colorCount_reindex permU' permU (by decide) (by decide)]
    exact hs c hc
  · rw [applyMove_D, colorCount_reindex permD permD' (by decide) (by decide)]
    exact hs c hc
  · rw [applyMove_D', colorCount_reindex permD' permD (by decide) (by decide)]
    exact hs c hc
  · rw [applyMove_R, colorCount_reindex permR permR' (by decide) (by decide)]
    exact hs c hc
  · rw [applyMove_R', colorCount_reindex permR' permR (by decide) (by decide)]
    exact hs c hc
  · rw [applyMove_L, colorCount_reindex permL permL' (by decide) (by decide)]
    exact hs c hc
  · rw [applyMove_L', colorCount_reindex permL' permL (by decide) (by decide)]
    exact hs c hc
  · rw [applyMove_F, colorCount_reindex permF permF' (by decide) (by decide)]
    exact hs c hc
  · rw [applyMove_F', colorCount_reindex permF' permF (by decide) (by decide)]
    exact hs c hc
  · rw [applyMove_B, colorCount_reindex permB permB' (by decide) (by decide)]
    exact hs c hc
  · rw [applyMove_B', colorCount_reindex permB' permB (by decide) (by decide)]
    exact hs c hc

/-- Witness for C6: the solved state has 9 facelets of each color, and after
    the concrete move `U` color 0 still occupies 9 facelets. -/
theorem apply_preserves_color_counts_witness :
    colorCount (applyMoveToCubeState "U" solvedState) 0 = 9 :=
  apply_preserves_color_counts "U" (by decide) solvedState (by decide) 0 (by decide)

/-- Claim C7: no move application ever changes the center facelet (index 4) of
    any face. -/
theorem apply_preserves_centers :
    ∀ m ∈ validMoves, ∀ (s : CubeState) (f : Face),
      applyMoveToCubeState m s f 4 = s f 4 := by
  intro m hm s f
  simp only [validMoves] at hm
  fin_cases hm <;> cases f <;> rfl

/-- Witness for C7 at the concrete move `R` on the scrambled state. -/
theorem apply_preserves_centers_witness :
    applyMoveToCubeState "R" (applySeq scrambleSequence solvedState) Face.B 4
      = (applySeq scrambleSequence solvedState) Face.B 4 :=
  apply_preserves_centers "R" (by decide) (applySeq scrambleSequence solvedState) Face.B

/-- Claim C8: the freshly created / reset state satisfies `checkSolved` and
    every face is uniformly its assigned color (U=0, D=1, F=2, B=3, R=4, L=5). -/
theorem solvedState_checkSolved_and_colors :
    checkSolved solvedState = true ∧
    (∀ i : Fin 9, solvedState Face.U i = 0) ∧
    (∀ i : Fin 9, solvedState Face.D i = 1) ∧
    (∀ i : Fin 9, solvedState Face.F i = 2) ∧
    (∀ i : Fin 9, solvedState Face.B i = 3) ∧
    (∀ i : Fin 9, solvedState Face.R i = 4) ∧
    (∀ i : Fin 9, solvedState Face.L i = 5) := by
  decide

/-- Claim C9: `checkSolved s` is true iff `s` is exactly the one fixed solved
    configuration (U all 0, D all 1, F all 2, B all 3, R all 4, L all 5); every
    other state — including uniformly recolored ones — yields `false`. -/
theorem checkSolved_true_iff_eq_solvedState (s : CubeState) :
    checkSolved s = true ↔ s = solvedState := by
  constructor
  · intro h
    funext f i
    exact (checkSolved_eq_true_iff s).mp h f i
  · rintro rfl
    rfl

/-- Claim C10: applying `U` changes at most the U face and the top rows
    (indices 0-2) of F, R, B, L: the whole D face and indices 3-8 of
    F, R, B, L are unchanged. -/
theorem moveU_frame :
    ∀ (s : CubeState) (f : Face) (i : Fin 9),
      f = Face.D ∨ (f ≠ Face.U ∧ 3 ≤ i.val) →
      applyMoveToCubeState "U" s f i = s f i := by
  intro s f i h
  rcases h with rfl | ⟨hfU, hi⟩
  · rfl
  · cases f with
    | U => exact absurd rfl hfU
    | D => rfl
    | F => fin_cases i <;> first | rfl | exact absurd hi (by decide)
    | B => fin_cases i <;> first | rfl | exact absurd hi (by decide)
    | R => fin_cases i <;> first | rfl | exact absurd hi (by decide)
    | L => fin_cases i <;> first | rfl | exact absurd hi (by decide)

/-- Witness for C10 at a concrete non-top-row facelet of the scrambled state. -/
theorem moveU_frame_witness :
    applyMoveToCubeState "U" (applySeq scrambleSequence solvedState) Face.F 5
      = (applySeq scrambleSequence solvedState) Face.F 5 :=
  moveU_frame (applySeq scrambleSequence solvedState) Face.F 5
    (Or.inr ⟨by decide, by decide⟩)
